import Mathlib

/-!
Shallow embedding of the turn-engine core of the RustRoguelike repository.

The definitions below are translated from the Rust sources:
  - roguelike_core/src/types.rs   (Momentum, Fighter, Object, AwarenessMap, GameState, ...)
  - roguelike_engine/src/game.rs  (GameSettings, win_condition_met, step_logic)

Rust i32 values are modelled as Int (no arithmetic in the translated paths
overflows in practice, and the claims are about exact small values), usize
counters as Nat, and f32 belief weights as Rat (the translated operations on
them use only the exact constants 0 and 1 and an order comparison).

Components of the crate that the claims depend on but whose source files are
not part of the snapshot (the entity store, the map tiles, the action and
message vocabularies, configuration, find_player) are modelled from the
specification; each such definition carries a doc comment starting with
"Modelled from the spec:".
-/

namespace Roguelike

/-- Translated from the num crate function used by types.rs:
clamp(input, min, max) returns min when input < min, max when input > max,
and input otherwise (release-build semantics; the bounds are not checked). -/
def clamp (input min max : Int) : Int :=
  if input < min then min
  else if input > max then max
  else input

/-- Translated from types.rs: struct Color. -/
structure Color where
  r : Nat
  g : Nat
  b : Nat
  a : Nat
deriving Repr, DecidableEq

/-- Translated from the engine sources: enum GameState. The copy of
types.rs in the snapshot lists only Playing, Win and Lose, but the
exhaustive match of step_game in game.rs (lines 205-234, no wildcard arm)
shows that the enum the engine compiles against also has the menu states
Inventory, Throwing, Interact and Selection, and step_logic is invoked
while the state is Throwing, Interact or Selection (game.rs lines 289,
316 and 345), so those variants are part of the type. -/
inductive GameState where
  | Playing
  | Win
  | Lose
  | Inventory
  | Throwing
  | Interact
  | Selection
deriving Repr, DecidableEq

/-- Translated from types.rs: enum Item. -/
inductive Item where
  | Stone
  | Goal
deriving Repr, DecidableEq

/-- Translated from types.rs: enum Ai. -/
inductive Ai where
  | Basic
deriving Repr, DecidableEq

/-- Translated from types.rs: struct Fighter. -/
structure Fighter where
  max_hp : Int
  hp : Int
  defense : Int
  power : Int
deriving Repr, DecidableEq

/-- Translated from types.rs: struct Momentum. -/
structure Momentum where
  mx : Int
  my : Int
  took_half_turn : Bool
  max : Int
deriving Repr, DecidableEq

/-- Translated from types.rs: impl Default for Momentum. -/
def Momentum.default : Momentum :=
  { mx := 0, my := 0, took_half_turn := false, max := 2 }

/-- Translated from types.rs: Momentum::magnitude. -/
def Momentum.magnitude (m : Momentum) : Int :=
  if m.mx.natAbs > m.my.natAbs then |m.mx| else |m.my|

/-- Translated from types.rs: Momentum::diagonal. -/
def Momentum.diagonal (m : Momentum) : Bool :=
  |m.mx| != 0 && |m.my| != 0

/-- Translated from types.rs: Momentum::moved. For each axis: when the axis
holds nonzero momentum and the sign of the attempted direction differs from
the sign of the momentum, the axis is reset to zero; otherwise the sign of
the attempted direction is added and the result clamped between -max and max. -/
def Momentum.moved (m : Momentum) (dx dy : Int) : Momentum :=
  let mx :=
    if m.mx ≠ 0 ∧ dx.sign ≠ m.mx.sign then 0
    else clamp (m.mx + dx.sign) (-m.max) m.max
  let my :=
    if m.my ≠ 0 ∧ dy.sign ≠ m.my.sign then 0
    else clamp (m.my + dy.sign) (-m.max) m.max
  { m with mx := mx, my := my }

/-- Translated from types.rs: Momentum::set_momentum (the components are
assigned directly, without clamping). -/
def Momentum.set_momentum (m : Momentum) (mx my : Int) : Momentum :=
  { m with mx := mx, my := my }

/-- Translated from types.rs: Momentum::clear. -/
def Momentum.clear (m : Momentum) : Momentum :=
  { m with mx := 0, my := 0 }

/-- Translated from types.rs: enum Behavior (the Position payload of
Investigating is an integer pair, and Attacking carries an ObjectId). -/
inductive Behavior where
  | Idle
  | Investigating (pos : Int × Int)
  | Attacking (target : Nat)
deriving Repr, DecidableEq

/-- Modelled from the spec: Reach is a declarative description of which
relative offsets are legal for a move or an attack (its defining file,
roguelike_core/src/movement.rs, is not part of the snapshot). -/
structure Reach where
  offsets : List (Int × Int)
deriving Repr, DecidableEq

/-- Translated from types.rs: enum Animation. -/
inductive Animation where
  | Idle
deriving Repr, DecidableEq

/-- Translated from types.rs: struct Object. The Rust struct has both a
field named attack and a method named attack; Lean does not allow that, so
the field (of type Option Reach) is named attack_reach here. -/
structure Object where
  x : Int
  y : Int
  chr : Char
  color : Color
  name : String
  blocks : Bool
  alive : Bool
  fighter : Option Fighter
  ai : Option Ai
  behavior : Option Behavior
  item : Option Item
  momentum : Option Momentum
  movement : Option Reach
  attack_reach : Option Reach
  animation : Option Animation
deriving Repr, DecidableEq

/-- Translated from types.rs: Object::take_damage. When a Fighter is present
and the damage is positive, hp is decreased by the damage; afterwards, when a
Fighter is present and its hp is at most zero, the alive flag is cleared. -/
def Object.take_damage (o : Object) (damage : Int) : Object :=
  let o :=
    match o.fighter with
    | some f => if damage > 0 then { o with fighter := some { f with hp := f.hp - damage } } else o
    | none => o
  match o.fighter with
  | some f => if f.hp ≤ 0 then { o with alive := false } else o
  | none => o

/-- Translated from types.rs: Object::attack. The damage is the attacker
power (0 when no Fighter) minus the target defense (0 when no Fighter);
take_damage is invoked on the target only when the damage is positive.
The method mutates only the target, which is returned. -/
def Object.attack (o : Object) (target : Object) : Object :=
  let damage := (o.fighter.map Fighter.power).getD 0 - (target.fighter.map Fighter.defense).getD 0
  if damage > 0 then target.take_damage damage else target

/-- Translated from types.rs: Object::heal. When a Fighter is present, hp is
increased by the amount and then capped at max_hp. -/
def Object.heal (o : Object) (amount : Int) : Object :=
  match o.fighter with
  | some f =>
    let f := { f with hp := f.hp + amount }
    let f := if f.hp > f.max_hp then { f with hp := f.max_hp } else f
    { o with fighter := some f }
  | none => o

/-- Translated from types.rs: struct AwarenessMap (f32 weights modelled as
Rat). -/
structure AwarenessMap where
  weights : List (List Rat)
  alt_weights : List (List Rat)
  width : Nat
  height : Nat
deriving Repr, DecidableEq

/-- Translated from types.rs: AwarenessMap::new. -/
def AwarenessMap.new (width height : Nat) : AwarenessMap :=
  { weights := List.replicate height (List.replicate width 0)
  , alt_weights := List.replicate height (List.replicate width 0)
  , width := width
  , height := height }

/-- Translated from types.rs: AwarenessMap::disperse. The source iterates
over every cell, builds the list of its eight neighbor coordinates and
filters that list for in-bounds cells carrying positive weight, but binds
the filtered iterator to an unused variable and never writes to either
weight grid: the method leaves the awareness map unchanged. -/
def AwarenessMap.disperse (a : AwarenessMap) : AwarenessMap :=
  a

/-- Translated from types.rs: enum Movement (ObjectId payloads as Nat). -/
inductive Movement where
  | Move (x y : Int)
  | Attack (x y : Int) (target : Nat)
  | Collide (x y : Int)
  | WallKick (x y dir_x dir_y : Int)
  | JumpWall (x y : Int)
deriving Repr, DecidableEq

/-- EntityId as used by game.rs: an opaque stable handle, modelled as Nat. -/
abbrev EntityId := Nat

/-- Translated from the Pos type used by game.rs: an integer coordinate pair. -/
structure Pos where
  x : Int
  y : Int
deriving Repr, DecidableEq

/-- Modelled from the spec: the action-intent vocabulary consumed by
step_logic (roguelike_core/src/movement.rs is not part of the snapshot).
Only constructors game.rs itself names are included, plus a plain move
intent; step_logic treats the intent as opaque data. -/
inductive Action where
  | NoAction
  | Move (dx dy : Int)
  | ThrowItem (pos : Pos) (thrower : EntityId)
  | UseItem (pos : Pos)
deriving Repr, DecidableEq

/-- Modelled from the spec: the Msg vocabulary of events and intents
(roguelike_core/src/messaging.rs is not part of the snapshot). step_logic
itself appends only Action messages. -/
inductive Msg where
  | Action (id : EntityId) (intent : Action)
  | Moved (id : EntityId) (movement : Movement) (pos : Pos)
  | Attack (attacker target : EntityId) (damage : Int)
  | Killed (killer victim : EntityId) (damage : Int)
  | SpikeTrapTriggered (trap victim : EntityId)
  | SoundTrapTriggered (trap source : EntityId)
  | StoneThrow (thrower projectile : EntityId) (start finish : Pos)
  | Yell (pos : Pos)
  | ChangeLevel
deriving Repr, DecidableEq

/-- Modelled from the spec: tile classification; the Exit variant is the one
win_condition_met tests, the others appear in make_map.rs
(roguelike_core/src/map.rs is not part of the snapshot). -/
inductive TileType where
  | Empty
  | Wall
  | Water
  | Exit
deriving Repr, DecidableEq

/-- Modelled from the spec: per-side wall flags of a tile. -/
inductive Wall where
  | Empty
  | ShortWall
  | TallWall
deriving Repr, DecidableEq

/-- Modelled from the spec: tile surface type; the variants appear in
make_map.rs. -/
inductive Surface where
  | Floor
  | Rubble
  | Grass
deriving Repr, DecidableEq

/-- Modelled from the spec: the per-tile data of the level grid (blocked,
blocks-sight, display glyph, tile classification, surface type, and
short/tall wall flags on the left and bottom sides). -/
structure Tile where
  blocked : Bool
  block_sight : Bool
  chr : Char
  tile_type : TileType
  surface : Surface
  left_wall : Wall
  bottom_wall : Wall
deriving Repr, DecidableEq

/-- Modelled from the spec: the level map, a grid of tiles addressed by
position together with the field-of-view data that compute_fov refreshes
(roguelike_core/src/map.rs is not part of the snapshot). -/
structure GameMap where
  tiles : Pos → Tile
  fov : Pos → Bool

/-- Modelled from the spec plus the capability accesses game.rs performs:
the entity store keeps a list of live ids and one mapping per capability.
Mappings the source indexes directly (pos, alive, blocks, chr, color,
inventory, needs_removal, animation) are modelled as total functions;
mappings the source queries with get (ai, fighter, action, item,
count_down) are Option-valued. The animation capability stores a list of
pending animation keys of which only the length is consulted, so it is
modelled as the pending count. The player tag that find_player searches
for is modelled as its own capability. -/
structure Entities where
  ids : List EntityId
  player : EntityId → Bool
  pos : EntityId → Pos
  alive : EntityId → Bool
  blocks : EntityId → Bool
  chr : EntityId → Char
  color : EntityId → Color
  ai : EntityId → Option Ai
  fighter : EntityId → Option Fighter
  action : EntityId → Option Action
  item : EntityId → Option Item
  inventory : EntityId → List EntityId
  count_down : EntityId → Option Nat
  needs_removal : EntityId → Bool
  animation : EntityId → Nat

/-- Pointwise update of a capability mapping at one id. -/
def upd {α : Type} (f : EntityId → α) (k : EntityId) (v : α) : EntityId → α :=
  fun i => if i = k then v else f i

/-- Modelled from the spec: remove(EntityId) purges the entity from every
capability mapping and from the live-id list. In this total-function model,
purging resets Option-valued mappings to none and the remaining mappings to
a default value. -/
def Entities.remove (e : Entities) (k : EntityId) : Entities :=
  { ids := e.ids.filter (fun i => i ≠ k)
  , player := upd e.player k false
  , pos := upd e.pos k { x := 0, y := 0 }
  , alive := upd e.alive k false
  , blocks := upd e.blocks k false
  , chr := upd e.chr k ' '
  , color := upd e.color k { r := 0, g := 0, b := 0, a := 0 }
  , ai := upd e.ai k none
  , fighter := upd e.fighter k none
  , action := upd e.action k none
  , item := upd e.item k none
  , inventory := upd e.inventory k []
  , count_down := upd e.count_down k none
  , needs_removal := upd e.needs_removal k false
  , animation := upd e.animation k 0 }

/-- Translated from types.rs/game.rs: GameData bundles the map and the
entity store. -/
structure GameData where
  map : GameMap
  entities : Entities

/-- Modelled from the spec: find_player returns the id of the first
player-tagged entity in live-id order, none when no such entity exists
(the defining source file is not part of the snapshot; the spec requires
exactly one player-tagged entity). -/
def GameData.find_player (d : GameData) : Option EntityId :=
  d.entities.ids.find? (fun k => d.entities.player k)

/-- Modelled from the spec: map generation mode; Island is the variant
game.rs names. -/
inductive MapGenType where
  | Island
deriving Repr, DecidableEq

/-- Translated from game.rs: enum SelectionAction. -/
inductive SelectionAction where
  | Throw
  | Hammer
deriving Repr, DecidableEq

/-- Translated from game.rs: enum SelectionType. -/
inductive SelectionType where
  | WithinReach (reach : Reach)
  | WithinRadius (radius : Nat)
deriving Repr, DecidableEq

/-- Translated from game.rs: struct Selection. -/
structure Selection where
  typ : SelectionType
  selection_action : SelectionAction
deriving Repr, DecidableEq

/-- Translated from game.rs: struct GameSettings (the version defined in
game.rs itself, which shadows the one from types.rs; the f32 field time is
modelled as Rat). -/
structure GameSettings where
  turn_count : Nat
  god_mode : Bool
  map_type : MapGenType
  exiting : Bool
  state : GameState
  draw_throw_overlay : Bool
  draw_interact_overlay : Bool
  draw_selection_overlay : Bool
  overlay : Bool
  console : Bool
  time : Rat
  render_map : Bool
  selection : Selection
deriving Repr, DecidableEq

/-- Modelled from the spec: the numeric tunables step_logic consumes — the
player death color and the player field-of-view radius. -/
structure Config where
  color_red : Color
  fov_radius_player : Int

/-- The mutable state threaded through step_logic: game data (map and
entity store), settings, and the message log. -/
structure GState where
  data : GameData
  settings : GameSettings
  msg_log : List Msg

/-- Replace the entity store inside a GState. -/
def GState.setEntities (g : GState) (e : Entities) : GState :=
  { g with data := { g.data with entities := e } }

/-- Append one message to the not-yet-resolved log. -/
def GState.logMsg (g : GState) (m : Msg) : GState :=
  { g with msg_log := g.msg_log ++ [m] }

/-- Translated from game.rs step_logic (the action-recording and resolution
of the player's intent): the intent is stored in the player's action
capability, an Action message is logged, and the resolver is run. The
resolver (resolve_messages, whose source file is not part of the snapshot)
is a function parameter. -/
def playerPhase (resolve : GState → GState) (player_action : Action)
    (player_id : EntityId) (g : GState) : GState :=
  let g := g.setEntities
    { g.data.entities with action := upd g.data.entities.action player_id (some player_action) }
  let g := g.logMsg (Msg.Action player_id player_action)
  resolve g

/-- Translated from game.rs step_logic: collect the ids of every entity that
has an AI capability, is alive, and has a Fighter capability. -/
def collectAiIds (g : GState) : List EntityId :=
  g.data.entities.ids.filter (fun k =>
    (g.data.entities.ai k).isSome && g.data.entities.alive k &&
      (g.data.entities.fighter k).isSome)

/-- Translated from game.rs step_logic: every collected AI entity is given
an action produced by ai_take_turn. ai_take_turn lives in a source file
that is not part of the snapshot; per the spec the AI engine only decides
intent and performs no world mutation, so it is a function parameter
returning an Action. -/
def assignAiActions (aiTurn : EntityId → GState → Action) (ai_id : List EntityId)
    (g : GState) : GState :=
  ai_id.foldl (fun g k =>
    g.setEntities
      { g.data.entities with action := upd g.data.entities.action k (some (aiTurn k g)) }) g

/-- Translated from game.rs step_logic (the body of the second AI loop):
when the entity has a pending action, an Action message is logged and
resolved; afterwards, when the entity still has a Fighter with hp at most
zero, its death bookkeeping runs immediately (alive and blocks cleared,
glyph set to the corpse character, Fighter capability removed). -/
def aiResolveStep (resolve : GState → GState) (g : GState) (k : EntityId) : GState :=
  match g.data.entities.action k with
  | some a =>
    let g := g.logMsg (Msg.Action k a)
    let g := resolve g
    match g.data.entities.fighter k with
    | some f =>
      if f.hp ≤ 0 then
        let e := g.data.entities
        g.setEntities
          { e with alive := upd e.alive k false
                 , blocks := upd e.blocks k false
                 , chr := upd e.chr k '%'
                 , fighter := upd e.fighter k none }
      else g
    | none => g
  | none => g

/-- Translated from game.rs step_logic: the whole AI block run when the
player is alive — collect the combatant AI ids, assign each an action, then
log and resolve each action in order. -/
def aiPhase (resolve : GState → GState) (aiTurn : EntityId → GState → Action)
    (g : GState) : GState :=
  let ai_id := collectAiIds g
  let g := assignAiActions aiTurn ai_id g
  ai_id.foldl (aiResolveStep resolve) g

/-- Translated from game.rs step_logic (the player hp check): when the
player has a Fighter with hp at most zero, the player is marked dead and
recolored, and when the game state is Playing it becomes Lose. -/
def playerLoseCheck (config : Config) (player_id : EntityId) (g : GState) : GState :=
  match g.data.entities.fighter player_id with
  | some f =>
    if f.hp ≤ 0 then
      let e := g.data.entities
      let g := g.setEntities
        { e with alive := upd e.alive player_id false
               , color := upd e.color player_id config.color_red }
      if g.settings.state = GameState.Playing then
        { g with settings := { g.settings with state := GameState.Lose } }
      else g
    else g
  | none => g

/-- Translated from game.rs step_logic (the body of the count-down loop):
an entity whose count reached zero is marked for removal, otherwise its
count is decremented; an entity flagged needs_removal with no pending
animation is marked for removal. -/
def sweepStep (acc : List EntityId × Entities) (entity_id : EntityId) :
    List EntityId × Entities :=
  let (to_remove, e) := acc
  let (to_remove, e) :=
    match e.count_down entity_id with
    | some count =>
      if count = 0 then (to_remove ++ [entity_id], e)
      else (to_remove, { e with count_down := upd e.count_down entity_id (some (count - 1)) })
    | none => (to_remove, e)
  if e.needs_removal entity_id && e.animation entity_id = 0 then
    (to_remove ++ [entity_id], e)
  else (to_remove, e)

/-- Translated from game.rs step_logic: the end-of-turn sweep — collect the
entities to remove while decrementing count-downs, then remove them. -/
def sweep (g : GState) : GState :=
  let p := g.data.entities.ids.foldl sweepStep ([], g.data.entities)
  g.setEntities (p.1.foldl Entities.remove p.2)

/-- Translated from game.rs step_logic: when the player position changed
during the turn, the field of view is recomputed at the new position.
Map::compute_fov lives in a source file that is not part of the snapshot
and is a function parameter. -/
def fovPhase (computeFov : Pos → Int → GameMap → GameMap) (config : Config)
    (previous_player_position : Pos) (player_id : EntityId) (g : GState) : GState :=
  let player_pos := g.data.entities.pos player_id
  if previous_player_position ≠ player_pos then
    { g with data := { g.data with map := computeFov player_pos config.fov_radius_player g.data.map } }
  else g

/-- Translated from game.rs step_logic: the action phases of a turn — the
player's action is recorded, logged and resolved, and then, only when the
player is still alive, the whole AI block runs. This is the state at which
step_logic performs the player hp check. -/
def afterActions (resolve : GState → GState) (aiTurn : EntityId → GState → Action)
    (player_action : Action) (player_id : EntityId) (g : GState) : GState :=
  let g := playerPhase resolve player_action player_id g
  if g.data.entities.alive player_id then aiPhase resolve aiTurn g else g

/-- Translated from game.rs: step_logic. find_player().unwrap() panics when
no player-tagged entity exists; the panic is modelled by returning none,
leaving no state at all. Otherwise: record the previous player position,
resolve the player's action, run the AI block only when the player is
alive, run the player hp check, sweep, and recompute the field of view if
the player moved. -/
def step_logic (resolve : GState → GState) (aiTurn : EntityId → GState → Action)
    (computeFov : Pos → Int → GameMap → GameMap) (config : Config)
    (player_action : Action) (g : GState) : Option GState :=
  match g.data.find_player with
  | none => none
  | some player_id =>
    let previous_player_position := g.data.entities.pos player_id
    let g2 := afterActions resolve aiTurn player_action player_id g
    let g3 := playerLoseCheck config player_id g2
    let g4 := sweep g3
    some (fovPhase computeFov config previous_player_position player_id g4)

/-- Translated from game.rs: win_condition_met. The player id comes from
find_player().unwrap(), modelled by returning none when there is no
player-tagged entity; otherwise the result is true exactly when some
carried item id maps to the Goal item and the tile at the player's
position has the Exit classification. -/
def win_condition_met (data : GameData) : Option Bool :=
  data.find_player.map (fun player_id =>
    let has_key := (data.entities.inventory player_id).any (fun item_id =>
      data.entities.item item_id == some Item.Goal)
    let player_pos := data.entities.pos player_id
    let on_exit_tile := (data.map.tiles player_pos).tile_type == TileType.Exit
    has_key && on_exit_tile)

/-- A sample object carrying a Fighter, used to instantiate the Object
theorems at concrete inputs. -/
def sampleFighterObject (f : Fighter) (al : Bool) : Object :=
  { x := 0, y := 0, chr := 'T', color := { r := 0, g := 0, b := 0, a := 0 }
  , name := "sample", blocks := true, alive := al, fighter := some f
  , ai := none, behavior := none, item := none, momentum := none
  , movement := none, attack_reach := none, animation := none }

/-- A concrete 2 by 2 awareness map holding positive weight at one cell. -/
def awExample : AwarenessMap :=
  { weights := [[1, 0], [0, 0]]
  , alt_weights := [[0, 0], [0, 0]]
  , width := 2, height := 2 }

/-- A floor tile. -/
def tileEmpty : Tile :=
  { blocked := false, block_sight := false, chr := ' '
  , tile_type := TileType.Empty, surface := Surface.Floor
  , left_wall := Wall.Empty, bottom_wall := Wall.Empty }

/-- An exit tile. -/
def tileExit : Tile :=
  { tileEmpty with tile_type := TileType.Exit }

/-- Sample settings in the Playing state. -/
def sampleSettings : GameSettings :=
  { turn_count := 0, god_mode := false, map_type := MapGenType.Island
  , exiting := false, state := GameState.Playing
  , draw_throw_overlay := false, draw_interact_overlay := false
  , draw_selection_overlay := false, overlay := false, console := false
  , time := 0, render_map := true
  , selection := { typ := SelectionType.WithinRadius 0
                 , selection_action := SelectionAction.Throw } }

/-- Sample config. -/
def sampleConfig : Config :=
  { color_red := { r := 255, g := 0, b := 0, a := 255 }, fov_radius_player := 4 }

/-- A sample entity store for the step_logic theorems: entity 0 is the
player (alive, Fighter at 0 hp), entity 1 is a combatant AI (alive, with
AI and Fighter capabilities). -/
def sampleEntities : Entities :=
  { ids := [0, 1]
  , player := fun i => i == 0
  , pos := fun _ => { x := 0, y := 0 }
  , alive := fun _ => true
  , blocks := fun _ => true
  , chr := fun _ => 'T'
  , color := fun _ => { r := 0, g := 0, b := 0, a := 0 }
  , ai := fun i => if i = 1 then some Ai.Basic else none
  , fighter := fun i =>
      if i = 0 then some { max_hp := 10, hp := 0, defense := 0, power := 5 }
      else if i = 1 then some { max_hp := 5, hp := 5, defense := 1, power := 1 }
      else none
  , action := fun _ => none
  , item := fun _ => none
  , inventory := fun _ => []
  , count_down := fun _ => none
  , needs_removal := fun _ => false
  , animation := fun _ => 0 }

/-- A sample game state built from sampleEntities. -/
def sampleState : GState :=
  { data := { map := { tiles := fun _ => tileEmpty, fov := fun _ => false }
            , entities := sampleEntities }
  , settings := sampleSettings
  , msg_log := [] }

/-- A game state whose entity store has no player-tagged entity. -/
def noPlayerState : GState :=
  { sampleState with
      data := { sampleState.data with
                  entities := { sampleEntities with player := fun _ => false } } }

/-- The sample game state with the settings in the Inventory menu state:
non-terminal and distinct from Playing. -/
def sampleInventoryState : GState :=
  { sampleState with settings := { sampleSettings with state := GameState.Inventory } }

/-- A sample game data for the win condition: the player (entity 0) carries
entity 1, which is the Goal item, and stands on an Exit tile. -/
def sampleWinData : GameData :=
  { map := { tiles := fun p => if p = { x := 0, y := 0 } then tileExit else tileEmpty
           , fov := fun _ => false }
  , entities :=
    { ids := [0, 1]
    , player := fun i => i == 0
    , pos := fun _ => { x := 0, y := 0 }
    , alive := fun i => i == 0
    , blocks := fun _ => false
    , chr := fun _ => 'T'
    , color := fun _ => { r := 0, g := 0, b := 0, a := 0 }
    , ai := fun _ => none
    , fighter := fun i => if i = 0 then some { max_hp := 10, hp := 10, defense := 0, power := 5 } else none
    , action := fun _ => none
    , item := fun i => if i = 1 then some Item.Goal else none
    , inventory := fun i => if i = 0 then [1] else []
    , count_down := fun _ => none
    , needs_removal := fun _ => false
    , animation := fun _ => 0 } }

/-- The identity resolver, the trivial AI decision function, and the
identity field-of-view computation, used to instantiate the step_logic
theorems at concrete inputs. -/
def idResolve : GState → GState := fun g => g

/-- Trivial AI decision function for concrete instantiations. -/
def noAiTurn : EntityId → GState → Action := fun _ _ => Action.NoAction

/-- Identity field-of-view computation for concrete instantiations. -/
def idFov : Pos → Int → GameMap → GameMap := fun _ _ m => m

/-- Bounds of clamp when the interval is well formed. -/
theorem clamp_le (v lo hi : Int) (h : lo ≤ hi) :
    lo ≤ clamp v lo hi ∧ clamp v lo hi ≤ hi := by
  unfold clamp
  split_ifs <;> omega

/-- C1: Momentum.moved updates each axis independently. An axis holding
nonzero momentum whose sign disagrees with the sign of the attempted
direction on that axis resets to zero; otherwise that axis becomes its old
value plus the sign of the attempted direction, clamped between -max and
max, and for a nonnegative cap the result lies in [-max, max]. The x axis
result does not depend on dy and the y axis result does not depend on dx.
In particular a momentum with mx = 2 and max = 2 receiving moved with
dx = -1 ends with mx = 0, not -1. -/
theorem momentum_moved_axis_update (m : Momentum) (dx dy : Int) :
    ((m.mx ≠ 0 ∧ dx.sign ≠ m.mx.sign) → (m.moved dx dy).mx = 0)
    ∧ (¬(m.mx ≠ 0 ∧ dx.sign ≠ m.mx.sign) →
        (m.moved dx dy).mx = clamp (m.mx + dx.sign) (-m.max) m.max)
    ∧ ((m.my ≠ 0 ∧ dy.sign ≠ m.my.sign) → (m.moved dx dy).my = 0)
    ∧ (¬(m.my ≠ 0 ∧ dy.sign ≠ m.my.sign) →
        (m.moved dx dy).my = clamp (m.my + dy.sign) (-m.max) m.max)
    ∧ (0 ≤ m.max →
        -m.max ≤ (m.moved dx dy).mx ∧ (m.moved dx dy).mx ≤ m.max
        ∧ -m.max ≤ (m.moved dx dy).my ∧ (m.moved dx dy).my ≤ m.max)
    ∧ (∀ dy2, (m.moved dx dy2).mx = (m.moved dx dy).mx)
    ∧ (∀ dx2, (m.moved dx2 dy).my = (m.moved dx dy).my)
    ∧ (m.mx = 2 → m.max = 2 → dx = -1 → (m.moved dx dy).mx = 0) := by
  have hx : (m.moved dx dy).mx =
      if m.mx ≠ 0 ∧ dx.sign ≠ m.mx.sign then 0
      else clamp (m.mx + dx.sign) (-m.max) m.max := rfl
  have hy : (m.moved dx dy).my =
      if m.my ≠ 0 ∧ dy.sign ≠ m.my.sign then 0
      else clamp (m.my + dy.sign) (-m.max) m.max := rfl
  refine ⟨?_, ?_, ?_, ?_, ?_, fun _ => rfl, fun _ => rfl, ?_⟩
  · intro h; rw [hx, if_pos h]
  · intro h; rw [hx, if_neg h]
  · intro h; rw [hy, if_pos h]
  · intro h; rw [hy, if_neg h]
  · intro hmax
    have hcx := clamp_le (m.mx + dx.sign) (-m.max) m.max (by omega)
    have hcy := clamp_le (m.my + dy.sign) (-m.max) m.max (by omega)
    rw [hx, hy]
    refine ⟨?_, ?_, ?_, ?_⟩ <;> (split_ifs <;> omega)
  · intro h1 h2 h3
    rw [hx, if_pos]
    rw [h1, h3]
    decide

/-- Witness for C1 at the momentum ⟨2, 0, false, 2⟩ with dx = -1, dy = 1. -/
theorem momentum_moved_axis_update_witness :
    ((⟨2, 0, false, 2⟩ : Momentum).moved (-1) 1).mx = 0
    ∧ -2 ≤ ((⟨2, 0, false, 2⟩ : Momentum).moved (-1) 1).my := by
  obtain ⟨h1, _, _, _, h5, _, _, _⟩ :=
    momentum_moved_axis_update (⟨2, 0, false, 2⟩ : Momentum) (-1) 1
  exact ⟨h1 (by decide), (h5 (by decide)).2.2.1⟩

/-- C6 counterexample: set_momentum stores its arguments without clamping,
so from the default momentum (which satisfies the bound) set_momentum 3 0
produces mx = 3 with max = 2, violating |mx| ≤ max. -/
theorem momentum_bound_counterexample :
    (|Momentum.default.mx| ≤ Momentum.default.max
      ∧ |Momentum.default.my| ≤ Momentum.default.max)
    ∧ ¬(|(Momentum.default.set_momentum 3 0).mx|
          ≤ (Momentum.default.set_momentum 3 0).max) := by
  decide

/-- C6 (amended): for every momentum satisfying |mx| ≤ max and |my| ≤ max,
moved (with any direction) and clear yield momenta still satisfying the
bound, and set_momentum does so when its own arguments satisfy the bound;
set_momentum does not clamp, so the restriction on its arguments is
necessary. -/
theorem momentum_bound_preserved (m : Momentum)
    (h : |m.mx| ≤ m.max ∧ |m.my| ≤ m.max) :
    (∀ dx dy, |(m.moved dx dy).mx| ≤ (m.moved dx dy).max
      ∧ |(m.moved dx dy).my| ≤ (m.moved dx dy).max)
    ∧ (|m.clear.mx| ≤ m.clear.max ∧ |m.clear.my| ≤ m.clear.max)
    ∧ (∀ a b, |a| ≤ m.max → |b| ≤ m.max →
        |(m.set_momentum a b).mx| ≤ (m.set_momentum a b).max
        ∧ |(m.set_momentum a b).my| ≤ (m.set_momentum a b).max) := by
  have hmax : 0 ≤ m.max := le_trans (abs_nonneg _) h.1
  refine ⟨?_, ?_, ?_⟩
  · intro dx dy
    have hx : (m.moved dx dy).mx =
        if m.mx ≠ 0 ∧ dx.sign ≠ m.mx.sign then 0
        else clamp (m.mx + dx.sign) (-m.max) m.max := rfl
    have hy : (m.moved dx dy).my =
        if m.my ≠ 0 ∧ dy.sign ≠ m.my.sign then 0
        else clamp (m.my + dy.sign) (-m.max) m.max := rfl
    have hmx : (m.moved dx dy).max = m.max := rfl
    have hcx := clamp_le (m.mx + dx.sign) (-m.max) m.max (by omega)
    have hcy := clamp_le (m.my + dy.sign) (-m.max) m.max (by omega)
    rw [hmx, hx, hy, abs_le, abs_le]
    constructor
    · split_ifs <;> constructor <;> omega
    · split_ifs <;> constructor <;> omega
  · constructor
    · show |(0:Int)| ≤ m.max
      simpa using hmax
    · show |(0:Int)| ≤ m.max
      simpa using hmax
  · intro a b ha hb
    exact ⟨ha, hb⟩

/-- Witness for C6 (amended) at the default momentum. -/
theorem momentum_bound_preserved_witness :
    |(Momentum.default.moved 1 0).mx| ≤ (Momentum.default.moved 1 0).max
    ∧ |(Momentum.default.set_momentum 2 (-1)).mx|
        ≤ (Momentum.default.set_momentum 2 (-1)).max := by
  obtain ⟨h1, _, h3⟩ := momentum_bound_preserved Momentum.default (by decide)
  exact ⟨(h1 1 0).1, (h3 2 (-1) (by decide) (by decide)).1⟩

/-- C10 counterexample: for the momentum ⟨0, 0, false, -1⟩ (negative cap),
moved 0 0 sets mx to clamp 0 1 (-1) = 1, so the result is not zero on the
x axis and differs from clear. -/
theorem moved_zero_counterexample :
    ((⟨0, 0, false, -1⟩ : Momentum).moved 0 0).mx = 1
    ∧ (⟨0, 0, false, -1⟩ : Momentum).moved 0 0
        ≠ (⟨0, 0, false, -1⟩ : Momentum).clear := by
  decide

/-- C10 (amended): for every momentum whose cap is nonnegative — which the
momentum invariant |mx| ≤ max guarantees — moved 0 0 equals clear: both
axes become zero while max and took_half_turn are unchanged. -/
theorem moved_zero_is_clear (m : Momentum) (h : 0 ≤ m.max) :
    m.moved 0 0 = m.clear := by
  have key : ∀ v : Int,
      (if v ≠ 0 ∧ (0:Int).sign ≠ v.sign then (0:Int)
        else clamp (v + (0:Int).sign) (-m.max) m.max) = 0 := by
    intro v
    rcases eq_or_ne v 0 with h0 | h0
    · rw [if_neg (by simp [h0])]
      rw [h0]
      show clamp (0 + (0:Int).sign) (-m.max) m.max = 0
      rw [Int.sign_zero]
      unfold clamp
      split_ifs <;> omega
    · have hs : (0:Int).sign ≠ v.sign := by
        rw [Int.sign_zero]
        intro he
        exact h0 (Int.sign_eq_zero_iff_zero.mp he.symm)
      rw [if_pos ⟨h0, hs⟩]
  show ({ m with
      mx := if m.mx ≠ 0 ∧ (0:Int).sign ≠ m.mx.sign then 0
            else clamp (m.mx + (0:Int).sign) (-m.max) m.max
    , my := if m.my ≠ 0 ∧ (0:Int).sign ≠ m.my.sign then 0
            else clamp (m.my + (0:Int).sign) (-m.max) m.max } : Momentum)
    = { m with mx := 0, my := 0 }
  rw [key m.mx, key m.my]

/-- Witness for C10 (amended) at the default momentum. -/
theorem moved_zero_is_clear_witness :
    Momentum.default.moved 0 0 = Momentum.default.clear :=
  moved_zero_is_clear Momentum.default (by decide)

/-- Computation of take_damage on an object carrying a Fighter: hp drops by
the damage only when the damage is positive, and the alive flag is cleared
exactly when the resulting hp is at most zero. -/
theorem take_damage_fighter (o : Object) (f : Fighter) (d : Int)
    (hf : o.fighter = some f) :
    o.take_damage d =
      { o with fighter := some (if d > 0 then { f with hp := f.hp - d } else f)
             , alive := if (if d > 0 then f.hp - d else f.hp) ≤ 0 then false
                        else o.alive } := by
  obtain ⟨x, y, chr, color, name, blocks, alive, fighter, ai, behavior,
    item, momentum, movement, attack_reach, animation⟩ := o
  simp only at hf
  subst hf
  by_cases hd : d > 0
  · by_cases hhp : f.hp - d ≤ 0
    · simp [Object.take_damage, hd, hhp]
    · simp [Object.take_damage, hd, hhp]
  · by_cases hhp : f.hp ≤ 0
    · simp [Object.take_damage, hd, hhp]
    · simp [Object.take_damage, hd, hhp]

/-- take_damage on an object without a Fighter does nothing. -/
theorem take_damage_no_fighter (o : Object) (d : Int) (hf : o.fighter = none) :
    o.take_damage d = o := by
  simp [Object.take_damage, hf]

/-- Computation of heal on an object carrying a Fighter. -/
theorem heal_fighter (o : Object) (f : Fighter) (amount : Int)
    (hf : o.fighter = some f) :
    o.heal amount =
      { o with fighter := some (if f.hp + amount > f.max_hp then { f with hp := f.max_hp }
                                else { f with hp := f.hp + amount }) } := by
  obtain ⟨x, y, chr, color, name, blocks, alive, fighter, ai, behavior,
    item, momentum, movement, attack_reach, animation⟩ := o
  simp only at hf
  subst hf
  by_cases hcap : f.hp + amount > f.max_hp
  · simp [Object.heal, hcap]
  · simp [Object.heal, hcap]

/-- heal on an object without a Fighter does nothing. -/
theorem heal_no_fighter (o : Object) (amount : Int) (hf : o.fighter = none) :
    o.heal amount = o := by
  simp [Object.heal, hf]

/-- C7: for an Object whose Fighter satisfies hp ≤ max_hp, the invariant
hp ≤ max_hp still holds after take_damage with any damage amount and after
heal with any amount. -/
theorem object_hp_le_max_hp_preserved (o : Object) (d amount : Int)
    (h : ∀ f, o.fighter = some f → f.hp ≤ f.max_hp) :
    (∀ f, (o.take_damage d).fighter = some f → f.hp ≤ f.max_hp)
    ∧ (∀ f, (o.heal amount).fighter = some f → f.hp ≤ f.max_hp) := by
  constructor
  · intro f2 hf2
    rcases hf : o.fighter with _ | f0
    · rw [take_damage_no_fighter o d hf, hf] at hf2
      cases hf2
    · have h0 := h f0 hf
      rw [take_damage_fighter o f0 d hf] at hf2
      simp only [Option.some.injEq] at hf2
      split_ifs at hf2 with hd
      · subst hf2; simp only; omega
      · subst hf2; omega
  · intro f2 hf2
    rcases hf : o.fighter with _ | f0
    · rw [heal_no_fighter o amount hf, hf] at hf2
      cases hf2
    · have h0 := h f0 hf
      rw [heal_fighter o f0 amount hf] at hf2
      simp only [Option.some.injEq] at hf2
      split_ifs at hf2 with hcap
      · subst hf2; simp only; omega
      · subst hf2; simp only; omega

/-- Witness for C7 at a concrete object (hp 4, max_hp 4), damage 7 and heal
amount 5. -/
theorem object_hp_le_max_hp_preserved_witness :
    (∀ f, ((sampleFighterObject { max_hp := 4, hp := 4, defense := 1, power := 1 } true).take_damage 7).fighter
        = some f → f.hp ≤ f.max_hp)
    ∧ (∀ f, ((sampleFighterObject { max_hp := 4, hp := 4, defense := 1, power := 1 } true).heal 5).fighter
        = some f → f.hp ≤ f.max_hp) :=
  object_hp_le_max_hp_preserved
    (sampleFighterObject { max_hp := 4, hp := 4, defense := 1, power := 1 } true) 7 5
    (by intro f hf
        simp only [sampleFighterObject, Option.some.injEq] at hf
        subst hf
        decide)

/-- C2 counterexample: attacker power 1 against target defense 5 gives
nonpositive damage, so take_damage is never invoked; a target whose hp is
already -1 (at most zero) keeps alive = true, although the claim requires
the alive flag to be cleared whenever the resulting hp is at most zero. -/
theorem object_attack_counterexample :
    (((sampleFighterObject { max_hp := 1, hp := 1, defense := 0, power := 1 } true).attack
        (sampleFighterObject { max_hp := 5, hp := -1, defense := 5, power := 0 } true)).fighter
      = some { max_hp := 5, hp := -1, defense := 5, power := 0 })
    ∧ ((sampleFighterObject { max_hp := 1, hp := 1, defense := 0, power := 1 } true).attack
        (sampleFighterObject { max_hp := 5, hp := -1, defense := 5, power := 0 } true)).alive
      = true := by
  decide

/-- C2 (amended): for attacker and target both carrying a Fighter, attack
deals damage = max 0 (attacker power - target defense): the target hp drops
by exactly that damage (unchanged when the damage is zero); when the damage
is positive and the resulting hp is at most zero the target is marked not
alive; when the damage is positive and the resulting hp is positive the
alive flag is unchanged; and when the damage is zero the whole target is
unchanged — in particular a target whose hp was already at most zero keeps
its alive flag in that case. -/
theorem object_attack_damage (a t : Object) (fa ft : Fighter)
    (ha : a.fighter = some fa) (ht : t.fighter = some ft) :
    (a.attack t).fighter = some { ft with hp := ft.hp - max 0 (fa.power - ft.defense) }
    ∧ (0 < fa.power - ft.defense → ft.hp - (fa.power - ft.defense) ≤ 0 →
        (a.attack t).alive = false)
    ∧ (0 < fa.power - ft.defense → 0 < ft.hp - (fa.power - ft.defense) →
        (a.attack t).alive = t.alive)
    ∧ (fa.power - ft.defense ≤ 0 → a.attack t = t) := by
  have hatt : a.attack t =
      if fa.power - ft.defense > 0 then t.take_damage (fa.power - ft.defense) else t := by
    simp [Object.attack, ha, ht]
  by_cases hd : 0 < fa.power - ft.defense
  · rw [hatt, if_pos hd, take_damage_fighter t ft _ ht]
    refine ⟨?_, ?_, ?_, ?_⟩
    · simp only [Option.some.injEq, if_pos hd]
      rw [max_eq_right hd.le]
    · intro _ hhp
      simp only [if_pos hd]
      rw [if_pos hhp]
    · intro _ hhp
      simp only [if_pos hd]
      rw [if_neg (by omega)]
    · intro hcon
      omega
  · rw [hatt, if_neg hd]
    refine ⟨?_, ?_, ?_, fun _ => rfl⟩
    · rw [ht]
      have hmax : max 0 (fa.power - ft.defense) = 0 := max_eq_left (by omega)
      rw [hmax]
      simp
    · intro hcon
      omega
    · intro hcon
      omega

/-- Witness for C2 (amended): attacker power 5 against target defense 2 and
hp 3 — the target ends at hp 0 and not alive. -/
theorem object_attack_damage_witness :
    ((sampleFighterObject { max_hp := 10, hp := 10, defense := 0, power := 5 } true).attack
        (sampleFighterObject { max_hp := 3, hp := 3, defense := 2, power := 0 } true)).fighter
      = some { max_hp := 3, hp := 0, defense := 2, power := 0 }
    ∧ ((sampleFighterObject { max_hp := 10, hp := 10, defense := 0, power := 5 } true).attack
        (sampleFighterObject { max_hp := 3, hp := 3, defense := 2, power := 0 } true)).alive
      = false := by
  obtain ⟨h1, h2, _, _⟩ := object_attack_damage
    (sampleFighterObject { max_hp := 10, hp := 10, defense := 0, power := 5 } true)
    (sampleFighterObject { max_hp := 3, hp := 3, defense := 2, power := 0 } true)
    { max_hp := 10, hp := 10, defense := 0, power := 5 }
    { max_hp := 3, hp := 3, defense := 2, power := 0 } rfl rfl
  exact ⟨h1.trans (by decide), h2 (by decide) (by decide)⟩

/-- C5: the awareness map awExample holds positive weight at a cell with
in-bounds neighbor cells, yet disperse leaves its weight grids unchanged:
the source builds and filters the neighbor lists but discards them, so no
weight is ever transferred. -/
theorem awareness_disperse_no_transfer :
    (∃ row ∈ awExample.weights, ∃ w ∈ row, 0 < w)
    ∧ awExample.disperse = awExample := by
  refine ⟨⟨[1, 0], by simp [awExample], 1, by simp, by norm_num⟩, rfl⟩

/-- C8: for game data containing a player entity, win_condition_met returns
true exactly when the player inventory contains an entity whose item
capability is the Goal item and the tile of the map at the player position
is classified Exit; removing either condition makes it return false. -/
theorem win_condition_met_iff (data : GameData) (player_id : EntityId)
    (h : data.find_player = some player_id) :
    (win_condition_met data = some true ↔
      ((∃ item_id ∈ data.entities.inventory player_id,
          data.entities.item item_id = some Item.Goal)
        ∧ (data.map.tiles (data.entities.pos player_id)).tile_type = TileType.Exit)) := by
  simp [win_condition_met, h, List.any_eq_true, Bool.and_eq_true, beq_iff_eq]

/-- Witness for C8 at sampleWinData: goal item carried and exit tile under
the player, so the win condition evaluates to true. -/
theorem win_condition_met_iff_witness :
    win_condition_met sampleWinData = some true :=
  (win_condition_met_iff sampleWinData 0 rfl).mpr
    ⟨⟨1, by decide, by decide⟩, by decide⟩

/-- C9: when the entity store contains no player-tagged entity, step_logic
returns none — the modelled fatal abort of find_player().unwrap(), which
fires before anything else in the function — so the call produces no
successor state and no part of the game state is touched. -/
theorem step_logic_no_player (resolve : GState → GState)
    (aiTurn : EntityId → GState → Action) (computeFov : Pos → Int → GameMap → GameMap)
    (config : Config) (player_action : Action) (g : GState)
    (h : g.data.find_player = none) :
    step_logic resolve aiTurn computeFov config player_action g = none := by
  unfold step_logic
  rw [h]

/-- Witness for C9 at a concrete state without a player. -/
theorem step_logic_no_player_witness :
    step_logic idResolve noAiTurn idFov sampleConfig Action.NoAction noPlayerState = none :=
  step_logic_no_player idResolve noAiTurn idFov sampleConfig Action.NoAction noPlayerState rfl

/-- C3: in every call of step_logic with a player present, the result is
assembled from afterActions; the AI block inside afterActions runs only
when the player is alive after the player's own action resolved, it
processes exactly the ids of collectAiIds taken at that moment, and an id
is collected exactly when the entity then has an AI capability, is alive,
and has a Fighter capability — an entity lacking any one of the three is
never collected and so never acts that turn. -/
theorem step_logic_ai_gating (resolve : GState → GState)
    (aiTurn : EntityId → GState → Action) (computeFov : Pos → Int → GameMap → GameMap)
    (config : Config) (player_action : Action) (g : GState) (player_id : EntityId)
    (g1 : GState) (h : g.data.find_player = some player_id)
    (hg1 : g1 = playerPhase resolve player_action player_id g) :
    (step_logic resolve aiTurn computeFov config player_action g
      = some (fovPhase computeFov config (g.data.entities.pos player_id) player_id
          (sweep (playerLoseCheck config player_id
            (afterActions resolve aiTurn player_action player_id g)))))
    ∧ (g1.data.entities.alive player_id = false →
        afterActions resolve aiTurn player_action player_id g = g1)
    ∧ (g1.data.entities.alive player_id = true →
        afterActions resolve aiTurn player_action player_id g
          = (collectAiIds g1).foldl (aiResolveStep resolve)
              (assignAiActions aiTurn (collectAiIds g1) g1))
    ∧ (∀ k ∈ collectAiIds g1,
        (g1.data.entities.ai k).isSome = true
        ∧ g1.data.entities.alive k = true
        ∧ (g1.data.entities.fighter k).isSome = true)
    ∧ (∀ k, ((g1.data.entities.ai k).isSome = false
          ∨ g1.data.entities.alive k = false
          ∨ (g1.data.entities.fighter k).isSome = false) →
        k ∉ collectAiIds g1) := by
  subst hg1
  have hmem : ∀ k ∈ collectAiIds (playerPhase resolve player_action player_id g),
      ((playerPhase resolve player_action player_id g).data.entities.ai k).isSome = true
      ∧ (playerPhase resolve player_action player_id g).data.entities.alive k = true
      ∧ ((playerPhase resolve player_action player_id g).data.entities.fighter k).isSome = true := by
    intro k hk
    simp only [collectAiIds, List.mem_filter, Bool.and_eq_true] at hk
    exact ⟨hk.2.1.1, hk.2.1.2, hk.2.2⟩
  refine ⟨?_, ?_, ?_, hmem, ?_⟩
  · unfold step_logic
    rw [h]
  · intro halive
    unfold afterActions
    simp [halive]
  · intro halive
    unfold afterActions
    simp only [halive]
    rfl
  · intro k hdis hk
    have hk2 := hmem k hk
    rcases hdis with h1 | h1 | h1 <;> simp [h1] at hk2

/-- Witness for C3 at sampleState: the overall decomposition holds and the
collected combatant AI entity 1 indeed has the AI capability. -/
theorem step_logic_ai_gating_witness :
    (step_logic idResolve noAiTurn idFov sampleConfig Action.NoAction sampleState
      = some (fovPhase idFov sampleConfig (sampleState.data.entities.pos 0) 0
          (sweep (playerLoseCheck sampleConfig 0
            (afterActions idResolve noAiTurn Action.NoAction 0 sampleState)))))
    ∧ ((playerPhase idResolve Action.NoAction 0 sampleState).data.entities.ai 1).isSome = true := by
  obtain ⟨h1, _, _, h4, _⟩ := step_logic_ai_gating idResolve noAiTurn idFov sampleConfig
    Action.NoAction sampleState 0 (playerPhase idResolve Action.NoAction 0 sampleState) rfl rfl
  exact ⟨h1, (h4 1 (by decide)).1⟩

/-- Settings are unchanged by the sweep. -/
theorem sweep_settings (g : GState) : (sweep g).settings = g.settings := rfl

/-- fovPhase changes only the map: settings and entities are untouched. -/
theorem fovPhase_preserves (computeFov : Pos → Int → GameMap → GameMap)
    (config : Config) (prev : Pos) (player_id : EntityId) (g : GState) :
    (fovPhase computeFov config prev player_id g).settings = g.settings
    ∧ (fovPhase computeFov config prev player_id g).data.entities = g.data.entities := by
  have hres : fovPhase computeFov config prev player_id g =
      if prev ≠ g.data.entities.pos player_id then
        { g with data := { g.data with
            map := computeFov (g.data.entities.pos player_id) config.fov_radius_player g.data.map } }
      else g := rfl
  rw [hres]
  split <;> exact ⟨rfl, rfl⟩

/-- The count-down fold of the sweep never changes the alive mapping. -/
theorem sweepStep_fold_alive (ids : List EntityId) (acc : List EntityId × Entities) :
    ((ids.foldl sweepStep acc).2).alive = acc.2.alive := by
  induction ids generalizing acc with
  | nil => rfl
  | cons a l ih =>
    rw [List.foldl_cons, ih]
    rcases acc with ⟨rem, e⟩
    unfold sweepStep
    rcases hc : e.count_down a with _ | c
    · simp only [hc]
      split <;> rfl
    · simp only [hc]
      split <;> split <;> rfl

/-- Removing entities preserves a cleared alive flag. -/
theorem remove_fold_alive_false (l : List EntityId) (e : Entities) (i : EntityId)
    (h : e.alive i = false) : (l.foldl Entities.remove e).alive i = false := by
  induction l generalizing e with
  | nil => exact h
  | cons a t ih =>
    rw [List.foldl_cons]
    apply ih
    have hrem : (Entities.remove e a).alive i = if i = a then false else e.alive i := rfl
    rw [hrem]
    split
    · rfl
    · exact h

/-- An alive flag cleared before the sweep remains cleared after it. -/
theorem sweep_alive_false (g : GState) (i : EntityId)
    (h : g.data.entities.alive i = false) :
    (sweep g).data.entities.alive i = false := by
  show (((g.data.entities.ids.foldl sweepStep ([], g.data.entities)).1).foldl
      Entities.remove ((g.data.entities.ids.foldl sweepStep ([], g.data.entities)).2)).alive i
    = false
  apply remove_fold_alive_false
  rw [sweepStep_fold_alive g.data.entities.ids ([], g.data.entities)]
  exact h

/-- Effect of the player hp check when the player Fighter has hp at most
zero: the player is marked not alive and the state becomes Lose exactly
when it was Playing. -/
theorem playerLoseCheck_spec (config : Config) (player_id : EntityId) (g : GState)
    (f : Fighter) (hf : g.data.entities.fighter player_id = some f) (hhp : f.hp ≤ 0) :
    (playerLoseCheck config player_id g).data.entities.alive player_id = false
    ∧ (playerLoseCheck config player_id g).settings.state
        = (if g.settings.state = GameState.Playing then GameState.Lose
           else g.settings.state) := by
  unfold playerLoseCheck
  rw [hf]
  simp only [hhp, if_true, GState.setEntities]
  constructor
  · split
    · simp [upd]
    · simp [upd]
  · split
    · rfl
    · rfl

/-- C4 counterexample: with the settings in the non-terminal Inventory menu
state and the player Fighter at hp 0 after the action phases, step_logic
leaves the game state at Inventory — it does not transition to Lose,
although Inventory is neither Win nor Lose, so the claim "Lose whenever the
current state is not terminal" fails at this input (the player is still
marked not alive). -/
theorem step_logic_lose_counterexample :
    ((afterActions idResolve noAiTurn Action.NoAction 0 sampleInventoryState).data.entities.fighter 0
      = some { max_hp := 10, hp := 0, defense := 0, power := 5 })
    ∧ (afterActions idResolve noAiTurn Action.NoAction 0 sampleInventoryState).settings.state
        = GameState.Inventory
    ∧ GameState.Inventory ≠ GameState.Win
    ∧ GameState.Inventory ≠ GameState.Lose
    ∧ ((step_logic idResolve noAiTurn idFov sampleConfig Action.NoAction
          sampleInventoryState).map (fun gf => gf.settings.state))
        = some GameState.Inventory
    ∧ ((step_logic idResolve noAiTurn idFov sampleConfig Action.NoAction
          sampleInventoryState).map (fun gf => gf.data.entities.alive 0))
        = some false := by
  decide

/-- C4 (amended): in every call of step_logic (player present) in which the
state after the action phases gives the player a Fighter with hp at most
zero, the final state marks the player not alive, and the game state
becomes Lose exactly when it was Playing — the code tests equality with
Playing, so a non-terminal menu state (Inventory, Throwing, Interact,
Selection) is left unchanged despite the player death, as is a terminal
Win or Lose. -/
theorem step_logic_lose_transition (resolve : GState → GState)
    (aiTurn : EntityId → GState → Action) (computeFov : Pos → Int → GameMap → GameMap)
    (config : Config) (player_action : Action) (g : GState) (player_id : EntityId)
    (g2 : GState) (f : Fighter)
    (h : g.data.find_player = some player_id)
    (hg2 : g2 = afterActions resolve aiTurn player_action player_id g)
    (hf : g2.data.entities.fighter player_id = some f)
    (hhp : f.hp ≤ 0) :
    ∃ gf, step_logic resolve aiTurn computeFov config player_action g = some gf
      ∧ gf.data.entities.alive player_id = false
      ∧ (g2.settings.state = GameState.Playing → gf.settings.state = GameState.Lose)
      ∧ (g2.settings.state ≠ GameState.Playing →
          gf.settings.state = g2.settings.state) := by
  subst hg2
  obtain ⟨hal, hst⟩ := playerLoseCheck_spec config player_id
    (afterActions resolve aiTurn player_action player_id g) f hf hhp
  refine ⟨fovPhase computeFov config (g.data.entities.pos player_id) player_id
      (sweep (playerLoseCheck config player_id
        (afterActions resolve aiTurn player_action player_id g))), ?_, ?_, ?_, ?_⟩
  · unfold step_logic
    rw [h]
  · rw [(fovPhase_preserves computeFov config (g.data.entities.pos player_id) player_id _).2]
    exact sweep_alive_false _ _ hal
  · intro hpl
    rw [(fovPhase_preserves computeFov config (g.data.entities.pos player_id) player_id _).1,
      sweep_settings, hst]
    rw [if_pos hpl]
  · intro hnp
    rw [(fovPhase_preserves computeFov config (g.data.entities.pos player_id) player_id _).1,
      sweep_settings, hst]
    rw [if_neg hnp]

/-- Witness for C4 (amended) at sampleState (player Fighter at hp 0,
settings in the Playing state): step_logic produces a state with the player
dead and the game state Lose. -/
theorem step_logic_lose_transition_witness :
    ∃ gf, step_logic idResolve noAiTurn idFov sampleConfig Action.NoAction sampleState = some gf
      ∧ gf.data.entities.alive 0 = false
      ∧ gf.settings.state = GameState.Lose := by
  obtain ⟨gf, h1, h2, h3, _⟩ := step_logic_lose_transition idResolve noAiTurn idFov
    sampleConfig Action.NoAction sampleState 0
    (afterActions idResolve noAiTurn Action.NoAction 0 sampleState)
    { max_hp := 10, hp := 0, defense := 0, power := 5 }
    rfl rfl (by decide) (by decide)
  exact ⟨gf, h1, h2, h3 (by decide)⟩

end Roguelike
